import Mathlib

/-!
Verification of the dustcloud DNS monitor against its specification.

The Rust sources are embedded shallowly: `HashMap`s become association
lists (insertion-ordered), `f64` time values become `ℚ`, byte buffers
become `List Nat` (each element a `u8` value), and the external
`dns_parser` crate is abstracted as a parameter `dnsParse`.  Wall-clock
reads (`Instant::elapsed`) become an explicit elapsed-time argument to
the functions that perform them.
-/

namespace Dustcloud

/-- Embeds `DnsProvider` from `src/capture/dns_providers.rs`. -/
inductive DnsProvider where
  | Cloudflare
  | Google
  | OpenDNS
  | Quad9
  | AdGuard
  | CleanBrowsing
  | Unknown
deriving DecidableEq, Repr

/-- Embeds `DnsProvider::as_str`. -/
def DnsProvider.as_str : DnsProvider → String
  | .Cloudflare => "cloudflare"
  | .Google => "google"
  | .OpenDNS => "opendns"
  | .Quad9 => "quad9"
  | .AdGuard => "adguard"
  | .CleanBrowsing => "cleanbrowsing"
  | .Unknown => "unknown"

/-- Embeds `DnsProvider::from_str` (match on the lowercased string). -/
def DnsProvider.from_str (s : String) : DnsProvider :=
  match s.toLower with
  | "cloudflare" => .Cloudflare
  | "google" => .Google
  | "opendns" => .OpenDNS
  | "quad9" => .Quad9
  | "adguard" => .AdGuard
  | "cleanbrowsing" => .CleanBrowsing
  | _ => .Unknown

/-- Embeds the static `DNS_PROVIDERS` map (a `HashMap` in Rust, modelled as
an association list in insertion order; the per-provider address sets are
pairwise disjoint, so iteration order never affects classification). -/
def DNS_PROVIDERS : List (DnsProvider × List String) :=
  [ (.Cloudflare, ["1.1.1.1", "1.0.0.1"])
  , (.Google, ["8.8.8.8", "8.8.4.4"])
  , (.OpenDNS, ["208.67.222.222", "208.67.220.220"])
  , (.Quad9, ["9.9.9.9", "149.112.112.112"])
  , (.AdGuard, ["94.140.14.14", "94.140.15.15"])
  , (.CleanBrowsing, ["185.228.168.9", "185.228.169.9"]) ]

/-- The loop body of `get_provider_for_ip`: scan the entries, return the
first provider whose address list contains `ip`. -/
def lookupProviderIn : List (DnsProvider × List String) → String → DnsProvider
  | [], _ => .Unknown
  | (p, ips) :: rest, ip => if ip ∈ ips then p else lookupProviderIn rest ip

/-- Embeds `get_provider_for_ip` from `src/capture/dns_providers.rs`. -/
def get_provider_for_ip (ip : String) : DnsProvider :=
  lookupProviderIn DNS_PROVIDERS ip

/-- Embeds `DNS_PROVIDERS.get(provider)` (association-list lookup). -/
def lookupIps : List (DnsProvider × List String) → DnsProvider → Option (List String)
  | [], _ => none
  | (p, ips) :: rest, q => if q = p then some ips else lookupIps rest q

/-- Embeds `get_filter_for_providers` from `src/capture/dns_providers.rs`. -/
def get_filter_for_providers (providers : List DnsProvider) : String :=
  if providers.isEmpty then "udp port 53"
  else
    let all_ips := providers.foldl
      (fun acc p => acc ++ ((lookupIps DNS_PROVIDERS p).getD [])) []
    let ip_conditions :=
      String.intercalate " or " (all_ips.map (fun ip => "host " ++ ip))
    "udp port 53 and (" ++ ip_conditions ++ ")"

/-- Embeds the CLI `Args` struct from `src/cli/args.rs` (paths as strings). -/
structure Args where
  disable_tui : Bool
  dns_only : Bool
  dns_providers : Option (List String)
  device : Option String
  output : Option String
  verbose : Bool
  list_devices : Bool
  continue_on_error : Bool
  filter_domains : Option (List String)
  max_packets : Nat
  format : String
deriving DecidableEq, Repr

/-- Embeds `Args::get_dns_providers`. -/
def Args.get_dns_providers (a : Args) : List DnsProvider :=
  match a.dns_providers with
  | some providers => providers.map DnsProvider.from_str
  | none => []

/-- Embeds `build_capture_filter` from `src/capture/filter.rs` (the debug
print has no bearing on the returned string and is omitted). -/
def build_capture_filter (args : Args) : String :=
  let providers := args.get_dns_providers
  if ¬ providers.isEmpty then get_filter_for_providers providers
  else if args.dns_only then "udp port 53 or tcp port 53"
  else ""

/-- The filter string mentions the DNS transport port. -/
abbrev mentionsDnsPort (s : String) : Prop :=
  "port 53".data <:+: s.data

/-- The filter string contains a host condition. -/
abbrev mentionsHostCond (s : String) : Prop :=
  "host".data <:+: s.data

/-- Helper: scanning a table none of whose entries contains `ip` yields
`Unknown`. -/
theorem lookupProviderIn_eq_unknown (l : List (DnsProvider × List String))
    (ip : String) (h : ∀ p ips, (p, ips) ∈ l → ip ∉ ips) :
    lookupProviderIn l ip = .Unknown := by
  induction l with
  | nil => rfl
  | cons head tail ih =>
    obtain ⟨p, ips⟩ := head
    rw [lookupProviderIn, if_neg (h p ips (List.mem_cons_self _ _))]
    exact ih fun q iqs hq => h q iqs (List.mem_cons_of_mem _ hq)

/-- C4: `get_provider_for_ip` is total and deterministic: any IP string in
a provider's known address set classifies to that provider; any string in
no provider's set classifies to `Unknown`; equal inputs give equal tags. -/
theorem claim_c4_classify_total_deterministic :
    (∀ p ips ip, (p, ips) ∈ DNS_PROVIDERS → ip ∈ ips →
      get_provider_for_ip ip = p)
    ∧ (∀ ip, (∀ p ips, (p, ips) ∈ DNS_PROVIDERS → ip ∉ ips) →
      get_provider_for_ip ip = .Unknown)
    ∧ (∀ ip₁ ip₂ : String, ip₁ = ip₂ →
      get_provider_for_ip ip₁ = get_provider_for_ip ip₂) := by
  refine ⟨?_, ?_, ?_⟩
  · intro p ips ip hmem hip
    fin_cases hmem <;> (fin_cases hip <;> decide)
  · intro ip h
    exact lookupProviderIn_eq_unknown DNS_PROVIDERS ip h
  · intro ip₁ ip₂ h
    rw [h]

/-- Witness for C4 at the concrete address "1.1.1.1". -/
theorem claim_c4_witness :
    ((DnsProvider.Cloudflare, ["1.1.1.1", "1.0.0.1"]) ∈ DNS_PROVIDERS
      ∧ "1.1.1.1" ∈ ["1.1.1.1", "1.0.0.1"])
    ∧ get_provider_for_ip "1.1.1.1" = DnsProvider.Cloudflare :=
  ⟨⟨by decide, by decide⟩,
    claim_c4_classify_total_deterministic.1 DnsProvider.Cloudflare
      ["1.1.1.1", "1.0.0.1"] "1.1.1.1" (by decide) (by decide)⟩

/-- A configuration with no providers and `dns_only` unset. -/
def args_no_providers : Args :=
  { disable_tui := false, dns_only := false, dns_providers := none
  , device := none, output := none, verbose := false, list_devices := false
  , continue_on_error := false, filter_domains := none, max_packets := 0
  , format := "text" }

/-- The same configuration with `dns_only` set. -/
def args_dns_only : Args :=
  { args_no_providers with dns_only := true }

/-- C7 counterexample: with zero providers and `dns_only` unset, the filter
handed to the capture source is the empty string, which does not match the
DNS transport port, so the claimed protocol/port-only shape fails. -/
theorem claim_c7_counterexample :
    args_no_providers.get_dns_providers = []
    ∧ build_capture_filter args_no_providers = ""
    ∧ ¬ mentionsDnsPort (build_capture_filter args_no_providers) := by
  refine ⟨rfl, rfl, ?_⟩
  decide

/-- C7 (amended): with zero providers the filter never contains a host
condition; it is the port-only disjunction "udp port 53 or tcp port 53"
exactly when `dns_only` is set, and the capture-all empty string
otherwise. -/
theorem claim_c7_amended_filter (a : Args)
    (h : a.get_dns_providers = []) :
    ¬ mentionsHostCond (build_capture_filter a)
    ∧ (a.dns_only = true →
        build_capture_filter a = "udp port 53 or tcp port 53")
    ∧ (a.dns_only = false → build_capture_filter a = "") := by
  have hb : build_capture_filter a =
      if a.dns_only then "udp port 53 or tcp port 53" else "" := by
    simp [build_capture_filter, h]
  cases hd : a.dns_only <;>
    simp only [hb, hd, if_true, if_false] <;>
    refine ⟨by decide, ?_, ?_⟩ <;> simp

/-- Witness for C7 (amended) at a concrete `dns_only` configuration. -/
theorem claim_c7_amended_witness :
    args_dns_only.get_dns_providers = []
    ∧ (¬ mentionsHostCond (build_capture_filter args_dns_only)
      ∧ (args_dns_only.dns_only = true →
          build_capture_filter args_dns_only = "udp port 53 or tcp port 53")
      ∧ (args_dns_only.dns_only = false →
          build_capture_filter args_dns_only = "")) :=
  ⟨rfl, claim_c7_amended_filter args_dns_only rfl⟩

/-- Embeds `extract_ip_addresses` from `src/net/mod.rs`.  A captured frame
is a `List Nat` of byte values. -/
def extract_ip_addresses (data : List Nat) : String × String :=
  if data.length < 34 then ("unknown", "unknown")
  else
    let ethertype := ((data.getD 12 0) <<< 8) ||| (data.getD 13 0)
    if ethertype ≠ 0x0800 then ("unknown", "unknown")
    else
      let ip_header := data.drop 14
      let src_ip := toString (ip_header.getD 12 0) ++ "." ++
        toString (ip_header.getD 13 0) ++ "." ++
        toString (ip_header.getD 14 0) ++ "." ++
        toString (ip_header.getD 15 0)
      let dst_ip := toString (ip_header.getD 16 0) ++ "." ++
        toString (ip_header.getD 17 0) ++ "." ++
        toString (ip_header.getD 18 0) ++ "." ++
        toString (ip_header.getD 19 0)
      (src_ip, dst_ip)

/-- Embeds `DnsQuery` from `src/dns/mod.rs` (`QueryType` rendered as the
string the sink will format it to). -/
structure DnsQuery where
  name : String
  query_type : String
deriving DecidableEq, Repr

/-- Embeds `DnsAnswer` from `src/dns/mod.rs`. -/
structure DnsAnswer where
  name : String
  data : String
deriving DecidableEq, Repr

/-- Embeds `DnsPacket` from `src/dns/mod.rs`. -/
structure DnsPacket where
  query : Option DnsQuery
  answers : List DnsAnswer
  provider : DnsProvider
  source : String
  destination : String
deriving DecidableEq, Repr

/-- Resource-record data of the external `dns_parser` crate.  Fields that
the crate renders through `Display` are carried as strings. -/
inductive RData where
  | A (addr : String)
  | AAAA (addr : String)
  | CNAME (name : String)
  | MX (preference : Nat) (exchange : String)
  | NS (name : String)
  | PTR (name : String)
  | SOA (primary_ns mailbox : String)
      (serial refresh retry expire minimum_ttl : Nat)
  | SRV (priority weight port : Nat) (target : String)
  | TXT (chunks : List String)
  | Other
deriving DecidableEq, Repr

/-- A parsed resource record of the external decoder. -/
structure ResourceRecord where
  name : String
  data : RData
deriving DecidableEq, Repr

/-- A question record of the external decoder. -/
structure Question where
  qname : String
  qtype : String
deriving DecidableEq, Repr

/-- The message the external `dns_parser::Packet::parse` yields. -/
structure DnsMsg where
  questions : List Question
  answers : List ResourceRecord
deriving DecidableEq, Repr

/-- Embeds the `match &answer.data` rendering inside `parse_packet`. -/
def renderRData : RData → String
  | .A addr => addr
  | .AAAA addr => addr
  | .CNAME name => name
  | .MX preference exchange => toString preference ++ " " ++ exchange
  | .NS name => name
  | .PTR name => name
  | .SOA primary_ns mailbox serial refresh retry expire minimum_ttl =>
      primary_ns ++ " " ++ mailbox ++ " " ++ toString serial ++ " " ++
        toString refresh ++ " " ++ toString retry ++ " " ++
        toString expire ++ " " ++ toString minimum_ttl
  | .SRV priority weight port target =>
      toString priority ++ " " ++ toString weight ++ " " ++
        toString port ++ " " ++ target
  | .TXT chunks => String.join chunks
  | .Other => "<unsupported record type>"

/-- Embeds `parse_packet` from `src/dns/mod.rs`.  The external DNS decoder
(`dns_parser::Packet::parse`) is abstracted as the parameter `dnsParse`;
everything else is the repository's own logic. -/
def parse_packet (dnsParse : List Nat → Option DnsMsg) (data : List Nat) :
    Option DnsPacket :=
  let dns_data_start := 42
  if data.length ≤ dns_data_start then none
  else
    let sd := extract_ip_addresses data
    let provider := get_provider_for_ip sd.1
    match dnsParse (data.drop dns_data_start) with
    | some dns =>
        let query : Option DnsQuery :=
          match dns.questions with
          | q :: _ => some { name := q.qname, query_type := q.qtype }
          | [] => none
        let answers := dns.answers.map
          (fun a => { name := a.name, data := renderRData a.data : DnsAnswer })
        some { query := query, answers := answers, provider := provider
             , source := sd.1, destination := sd.2 }
    | none => none

/-- Embeds `TxEvent` from `src/shared.rs` (the single `DnsQuery` variant;
`SystemTime` modelled as a natural number). -/
structure TxEvent where
  domain : String
  query_type : String
  provider : DnsProvider
  source : String
  destination : String
  timestamp : Nat
deriving DecidableEq, Repr

/-- Embeds `ChannelOutput::handle_dns_packet` from
`src/capture/output_mode/tui_output.rs`: the list of events it sends on
the channel (`SystemTime::now()` passed in as `now`). -/
def handle_dns_packet (now : Nat) (dns_packet : DnsPacket) : List TxEvent :=
  match dns_packet.query with
  | some query =>
      [ { domain := query.name, query_type := query.query_type
        , provider := dns_packet.provider, source := dns_packet.source
        , destination := dns_packet.destination, timestamp := now } ]
  | none => []

/-- A concrete external decoder that reports one A question. -/
def dnsParseOneQuestion : List Nat → Option DnsMsg :=
  fun _ => some { questions := [{ qname := "example.com", qtype := "A" }]
                , answers := [] }

/-- A concrete external decoder that reports a question-free message. -/
def dnsParseNoQuestion : List Nat → Option DnsMsg :=
  fun _ => some { questions := [], answers := [] }

/-- A 43-byte IPv4/UDP frame from 192.168.0.2 to the resolver 1.1.1.1. -/
def frame_to_cloudflare : List Nat :=
  [0, 0, 0, 0, 0, 0, 0, 0, 0, 0, 0, 0, 0x08, 0x00,
   0, 0, 0, 0, 0, 0, 0, 0, 0, 0, 0, 0, 192, 168, 0, 2, 1, 1, 1, 1,
   0, 0, 0, 0, 0, 0, 0, 0, 0]

/-- C5 counterexample: on a query frame addressed to the resolver 1.1.1.1,
the decoded observation's tag is `Unknown` (the classification of the
frame's source address), not the classification of the destination
resolver address, which is `Cloudflare`. -/
theorem claim_c5_counterexample :
    (parse_packet dnsParseOneQuestion frame_to_cloudflare).map
        DnsPacket.provider = some DnsProvider.Unknown
    ∧ (parse_packet dnsParseOneQuestion frame_to_cloudflare).map
        (fun p => get_provider_for_ip p.destination) =
      some DnsProvider.Cloudflare
    ∧ DnsProvider.Unknown ≠ DnsProvider.Cloudflare := by
  refine ⟨by decide, by decide, by decide⟩

/-- C5 (amended): for every captured frame that decodes into an
observation, the observation's provider tag is the classification of the
frame's source address (for a resolver's response this is the resolver;
for an outbound query it is the querying host). -/
theorem claim_c5_amended_tag_of_source
    (dnsParse : List Nat → Option DnsMsg) (data : List Nat)
    (pkt : DnsPacket) (h : parse_packet dnsParse data = some pkt) :
    pkt.provider = get_provider_for_ip pkt.source := by
  unfold parse_packet at h
  by_cases hlen : data.length ≤ 42
  · simp [hlen] at h
  · simp only [hlen, if_false, if_neg hlen] at h
    cases hp : dnsParse (data.drop 42) with
    | none => rw [hp] at h; exact absurd h (by simp)
    | some dns =>
        rw [hp] at h
        simp only [Option.some.injEq] at h
        subst h
        rfl

/-- The observation decoded from `frame_to_cloudflare`. -/
def pkt_to_cloudflare : DnsPacket :=
  { query := some { name := "example.com", query_type := "A" }
  , answers := [], provider := .Unknown
  , source := "192.168.0.2", destination := "1.1.1.1" }

/-- Witness for C5 (amended) on the concrete frame. -/
theorem claim_c5_amended_witness :
    parse_packet dnsParseOneQuestion frame_to_cloudflare =
      some pkt_to_cloudflare
    ∧ pkt_to_cloudflare.provider =
      get_provider_for_ip pkt_to_cloudflare.source :=
  ⟨by decide,
    claim_c5_amended_tag_of_source dnsParseOneQuestion frame_to_cloudflare
      pkt_to_cloudflare (by decide)⟩

/-- C9: a frame shorter than the fixed 42-byte link+network+transport
prefix decodes to no observation: `parse_packet` returns `none` (the
embedding is pure, so there is no side effect and no failure). -/
theorem claim_c9_short_frame_none
    (dnsParse : List Nat → Option DnsMsg) (data : List Nat)
    (h : data.length < 42) :
    parse_packet dnsParse data = none := by
  unfold parse_packet
  rw [if_pos (Nat.le_of_lt h)]

/-- Witness for C9 on a 10-byte frame. -/
theorem claim_c9_witness :
    ([0, 1, 2, 3, 4, 5, 6, 7, 8, 9] : List Nat).length < 42
    ∧ parse_packet dnsParseOneQuestion
        ([0, 1, 2, 3, 4, 5, 6, 7, 8, 9] : List Nat) = none :=
  ⟨by decide,
    claim_c9_short_frame_none dnsParseOneQuestion
      ([0, 1, 2, 3, 4, 5, 6, 7, 8, 9] : List Nat) (by decide)⟩

/-- C10: a frame long enough to reach the DNS payload whose payload parses
as a DNS message with zero question records yields `some` packet with an
empty `query`, and the channeled sink sends no event for it. -/
theorem claim_c10_no_question_dropped
    (dnsParse : List Nat → Option DnsMsg) (data : List Nat) (msg : DnsMsg)
    (now : Nat) (hlen : 42 < data.length)
    (hparse : dnsParse (data.drop 42) = some msg)
    (hq : msg.questions = []) :
    (parse_packet dnsParse data).isSome = true
    ∧ (parse_packet dnsParse data).map DnsPacket.query = some none
    ∧ (parse_packet dnsParse data).map (handle_dns_packet now) = some [] := by
  have hlen' : ¬ data.length ≤ 42 := Nat.not_le.mpr hlen
  obtain ⟨qs, ans⟩ := msg
  have hq' : qs = [] := hq
  subst hq'
  unfold parse_packet
  rw [if_neg hlen', hparse]
  exact ⟨rfl, rfl, rfl⟩

/-- Witness for C10 on the concrete 43-byte frame and question-free
decoder. -/
theorem claim_c10_witness :
    (42 < frame_to_cloudflare.length
      ∧ dnsParseNoQuestion (frame_to_cloudflare.drop 42) =
        some { questions := [], answers := [] }
      ∧ ({ questions := [], answers := [] } : DnsMsg).questions = [])
    ∧ ((parse_packet dnsParseNoQuestion frame_to_cloudflare).isSome = true
      ∧ (parse_packet dnsParseNoQuestion frame_to_cloudflare).map
          DnsPacket.query = some none
      ∧ (parse_packet dnsParseNoQuestion frame_to_cloudflare).map
          (handle_dns_packet 0) = some []) :=
  ⟨⟨by decide, by decide, by decide⟩,
    claim_c10_no_question_dropped dnsParseNoQuestion frame_to_cloudflare
      { questions := [], answers := [] } 0 (by decide) (by decide)
      (by decide)⟩

/-- Descending-count comparator: the Rust code sorts with
`sort_by(|a, b| b.1.cmp(&a.1))`, i.e. larger counts first.  Tie order is
left to the sorting algorithm, matching the spec's note that the
tie-break is unspecified. -/
def countGe {α : Type} (a b : α × Nat) : Prop := b.2 ≤ a.2

instance {α : Type} : DecidableRel (countGe (α := α)) :=
  fun a b => inferInstanceAs (Decidable (b.2 ≤ a.2))

instance {α : Type} : IsTotal (α × Nat) countGe :=
  ⟨fun a b => (Nat.le_total b.2 a.2).imp id id⟩

instance {α : Type} : IsTrans (α × Nat) countGe :=
  ⟨fun _ _ _ h₁ h₂ => le_trans h₂ h₁⟩

/-- Embeds `*map.entry(k).or_insert(0) += 1` on an insertion-ordered
association list. -/
def bumpCount {α : Type} [DecidableEq α] (k : α) :
    List (α × Nat) → List (α × Nat)
  | [] => [(k, 1)]
  | (k₀, v) :: rest =>
      if k = k₀ then (k₀, v + 1) :: rest else (k₀, v) :: bumpCount k rest

/-- Embeds `*map.get(&k).unwrap_or(&0)`. -/
def getCount {α : Type} [DecidableEq α] (k : α) : List (α × Nat) → Nat
  | [] => 0
  | (k₀, v) :: rest => if k = k₀ then v else getCount k rest

/-- Embeds `map.entry(p).or_insert_with(Vec::new).push(pt)` on the
per-provider history. -/
def pushHistory (p : DnsProvider) (pt : ℚ × ℚ) :
    List (DnsProvider × List (ℚ × ℚ)) → List (DnsProvider × List (ℚ × ℚ))
  | [] => [(p, [pt])]
  | (p₀, pts) :: rest =>
      if p = p₀ then (p₀, pts ++ [pt]) :: rest
      else (p₀, pts) :: pushHistory p pt rest

/-- Embeds `DnsTrafficData` from `src/tui/mod.rs`.  `start_time` is
replaced by passing the elapsed time explicitly to the operations that
read it; the `HashMap`s and the `VecDeque` become lists. -/
structure DnsTrafficData where
  provider_history : List (DnsProvider × List (ℚ × ℚ))
  window_size : ℚ
  top_domains : List (String × Nat)
  top_providers : List (DnsProvider × Nat)
  queries_per_provider : List (DnsProvider × Nat)
  domain_counts : List (String × Nat)
  provider_counts : List (DnsProvider × Nat)
  recent_queries : List TxEvent
  connections : List (String × Nat)

/-- Embeds `DnsTrafficData::new`. -/
def DnsTrafficData.new (window_size : ℚ) : DnsTrafficData :=
  { provider_history := [], window_size := window_size, top_domains := []
  , top_providers := [], queries_per_provider := [], domain_counts := []
  , provider_counts := [], recent_queries := [], connections := [] }

/-- Embeds `DnsTrafficData::update_top_lists`: both top lists are rebuilt
from the full counter maps, sorted by descending count, and truncated. -/
def DnsTrafficData.update_top_lists (d : DnsTrafficData) : DnsTrafficData :=
  { d with
    top_domains := (d.domain_counts.insertionSort countGe).take 10
    top_providers := (d.provider_counts.insertionSort countGe).take 5 }

/-- Embeds `DnsTrafficData::prune_old_data` (the `start_time.elapsed()`
read becomes the `elapsed` argument). -/
def DnsTrafficData.prune_old_data (elapsed : ℚ) (d : DnsTrafficData) :
    DnsTrafficData :=
  let cutoff := elapsed - d.window_size
  { d with
    provider_history := d.provider_history.map
      (fun en => (en.1, en.2.filter (fun pt => cutoff ≤ pt.1))) }

/-- Embeds `DnsTrafficData::update` on the single `TxEvent::DnsQuery`
variant: bump the four counter maps, append an `(elapsed, newCount)`
sample to the provider's series, front-insert the event into the recent
deque evicting from the back past 100, then rebuild the top lists and
prune the window. -/
def DnsTrafficData.update (elapsed : ℚ) (event : TxEvent)
    (d : DnsTrafficData) : DnsTrafficData :=
  let domain_counts := bumpCount event.domain d.domain_counts
  let provider_counts := bumpCount event.provider d.provider_counts
  let queries_per_provider := bumpCount event.provider d.queries_per_provider
  let connection_key := event.source ++ "->" ++ event.destination
  let connections := bumpCount connection_key d.connections
  let count : ℚ := (getCount event.provider queries_per_provider : ℚ)
  let provider_history :=
    pushHistory event.provider (elapsed, count) d.provider_history
  let recent0 := event :: d.recent_queries
  let recent_queries :=
    if 100 < recent0.length then recent0.dropLast else recent0
  DnsTrafficData.prune_old_data elapsed
    (DnsTrafficData.update_top_lists
      { d with
        domain_counts := domain_counts
        provider_counts := provider_counts
        queries_per_provider := queries_per_provider
        connections := connections
        provider_history := provider_history
        recent_queries := recent_queries })

/-- Embeds `DnsTrafficData::get_top_connections`. -/
def DnsTrafficData.get_top_connections (d : DnsTrafficData)
    (limit : Nat) : List (String × Nat) :=
  (d.connections.insertionSort countGe).take limit

/-- Folds a sequence of `(elapsed, event)` updates into the aggregator,
as the presentation loop's drain does. -/
def foldUpdates (evs : List (ℚ × TxEvent)) (d : DnsTrafficData) :
    DnsTrafficData :=
  evs.foldl (fun st pe => DnsTrafficData.update pe.1 pe.2 st) d

/-- The C1 invariant on an aggregator state: lengths bounded by 10/5/5,
each top list sorted by descending count, and each top list equal to the
sorted, truncated copy of its full counter map. -/
def TopListsInv (d : DnsTrafficData) : Prop :=
  d.top_domains.length ≤ 10
  ∧ d.top_providers.length ≤ 5
  ∧ (d.get_top_connections 5).length ≤ 5
  ∧ d.top_domains.Sorted countGe
  ∧ d.top_providers.Sorted countGe
  ∧ (d.get_top_connections 5).Sorted countGe
  ∧ d.top_domains = (d.domain_counts.insertionSort countGe).take 10
  ∧ d.top_providers = (d.provider_counts.insertionSort countGe).take 5
  ∧ d.get_top_connections 5 = (d.connections.insertionSort countGe).take 5

/-- Helper: a truncated descending sort is sorted. -/
theorem sorted_take_insertionSort {α : Type} (l : List (α × Nat)) (n : Nat) :
    ((l.insertionSort countGe).take n).Sorted countGe :=
  List.Pairwise.sublist (List.take_sublist n _)
    (List.sorted_insertionSort countGe l)

/-- Helper: any state produced by `update_top_lists` followed by
`prune_old_data` satisfies the top-list invariant. -/
theorem topListsInv_after (e : ℚ) (d : DnsTrafficData) :
    TopListsInv (DnsTrafficData.prune_old_data e
      (DnsTrafficData.update_top_lists d)) := by
  refine ⟨?_, ?_, ?_, ?_, ?_, ?_, rfl, rfl, rfl⟩
  · exact List.length_take_le 10 _
  · exact List.length_take_le 5 _
  · exact List.length_take_le 5 _
  · exact sorted_take_insertionSort _ 10
  · exact sorted_take_insertionSort _ 5
  · exact sorted_take_insertionSort _ 5

/-- Helper: every single `update` call re-establishes the top-list
invariant, whatever the incoming state. -/
theorem topListsInv_update (e : ℚ) (ev : TxEvent) (d : DnsTrafficData) :
    TopListsInv (DnsTrafficData.update e ev d) :=
  topListsInv_after e _

/-- Helper: the freshly created aggregator satisfies the invariant. -/
theorem topListsInv_new (w : ℚ) : TopListsInv (DnsTrafficData.new w) :=
  ⟨Nat.zero_le _, Nat.zero_le _, Nat.zero_le _,
    List.sorted_nil, List.sorted_nil, List.sorted_nil, rfl, rfl, rfl⟩

/-- Helper: the invariant survives any tail of further updates. -/
theorem topListsInv_foldUpdates (evs : List (ℚ × TxEvent)) :
    ∀ d : DnsTrafficData, TopListsInv d → TopListsInv (foldUpdates evs d) := by
  induction evs with
  | nil => exact fun d h => h
  | cons pe rest ih =>
      exact fun d _ => ih _ (topListsInv_update pe.1 pe.2 d)

/-- C1: after any sequence of updates, the top-domain list has length at
most 10, the top-provider and top-connection lists at most 5; each is
sorted by descending count, and each equals the sorted, truncated copy of
its full counter map — recomputed, never incrementally patched. -/
theorem claim_c1_top_lists (w : ℚ) (evs : List (ℚ × TxEvent)) :
    TopListsInv (foldUpdates evs (DnsTrafficData.new w)) :=
  topListsInv_foldUpdates evs _ (topListsInv_new w)

/-- Helper: the `recent_queries` field produced by one `update`, read off
the definition: front-insert, then evict from the back past 100. -/
theorem update_recent_queries (e : ℚ) (ev : TxEvent) (st : DnsTrafficData) :
    (DnsTrafficData.update e ev st).recent_queries =
      if 100 < (ev :: st.recent_queries).length
      then (ev :: st.recent_queries).dropLast
      else ev :: st.recent_queries := rfl

/-- Helper: one update keeps the recent-activity buffer within 100. -/
theorem recent_le_update (e : ℚ) (ev : TxEvent) (st : DnsTrafficData)
    (h : st.recent_queries.length ≤ 100) :
    (DnsTrafficData.update e ev st).recent_queries.length ≤ 100 := by
  rw [update_recent_queries]
  split_ifs with hlen
  · rw [List.length_dropLast, List.length_cons]
    omega
  · rw [List.length_cons] at hlen ⊢
    omega

/-- Helper: the buffer bound survives any sequence of updates. -/
theorem recent_le_foldUpdates (evs : List (ℚ × TxEvent)) :
    ∀ d : DnsTrafficData, d.recent_queries.length ≤ 100 →
      (foldUpdates evs d).recent_queries.length ≤ 100 := by
  induction evs with
  | nil => exact fun d h => h
  | cons pe rest ih =>
      exact fun d h => ih _ (recent_le_update pe.1 pe.2 d h)

/-- C3: after any sequence of updates the recent-activity buffer holds at
most 100 entries; each update front-inserts the new event and, exactly
when the length then exceeds 100, evicts the oldest entry from the
back. -/
theorem claim_c3_recent_buffer :
    (∀ (w : ℚ) (evs : List (ℚ × TxEvent)),
      (foldUpdates evs (DnsTrafficData.new w)).recent_queries.length ≤ 100)
    ∧ (∀ (e : ℚ) (ev : TxEvent) (st : DnsTrafficData),
      (DnsTrafficData.update e ev st).recent_queries =
        if 100 < (ev :: st.recent_queries).length
        then (ev :: st.recent_queries).dropLast
        else ev :: st.recent_queries) :=
  ⟨fun _ evs => recent_le_foldUpdates evs _ (Nat.zero_le _),
    update_recent_queries⟩

/-- An observation for "example.com" whose tag is the classification of
the address "1.1.1.1". -/
def ev_example : TxEvent :=
  { domain := "example.com", query_type := "A"
  , provider := get_provider_for_ip "1.1.1.1"
  , source := "1.1.1.1", destination := "10.0.0.2", timestamp := 0 }

/-- An observation for "foo.com" whose tag is the classification of the
address "8.8.8.8". -/
def ev_foo : TxEvent :=
  { domain := "foo.com", query_type := "A"
  , provider := get_provider_for_ip "8.8.8.8"
  , source := "8.8.8.8", destination := "10.0.0.2", timestamp := 0 }

/-- The C6 scenario: three observations for "example.com" from "1.1.1.1",
then one for "foo.com" from "8.8.8.8", within a 60-second window. -/
def scenario_c6 : DnsTrafficData :=
  foldUpdates [(1, ev_example), (2, ev_example), (3, ev_example), (4, ev_foo)]
    (DnsTrafficData.new 60)

/-- C6: the scenario yields top-domain `[("example.com",3),("foo.com",1)]`
and top-provider `[("cloudflare",3),("google",1)]`, and the classifier maps
"1.1.1.1" to "cloudflare" and "9.9.9.9" to "quad9". -/
theorem claim_c6_scenario :
    scenario_c6.top_domains = [("example.com", 3), ("foo.com", 1)]
    ∧ scenario_c6.top_providers.map (fun pr => (pr.1.as_str, pr.2)) =
      [("cloudflare", 3), ("google", 1)]
    ∧ (get_provider_for_ip "1.1.1.1").as_str = "cloudflare"
    ∧ (get_provider_for_ip "9.9.9.9").as_str = "quad9" := by
  refine ⟨by decide, by decide, by decide, by decide⟩

/-- Helper: `update` leaves the window length unchanged. -/
theorem update_window_size (e : ℚ) (ev : TxEvent) (st : DnsTrafficData) :
    (DnsTrafficData.update e ev st).window_size = st.window_size := rfl

/-- Helper: any sequence of updates leaves the window length unchanged. -/
theorem foldUpdates_window_size (evs : List (ℚ × TxEvent)) :
    ∀ d : DnsTrafficData, (foldUpdates evs d).window_size = d.window_size := by
  induction evs with
  | nil => exact fun d => rfl
  | cons pe rest ih =>
      exact fun d => (ih _).trans (update_window_size pe.1 pe.2 d)

/-- Helper: the provider history produced by one `update`, read off the
definition: append the new sample, then retain only samples at or after
the cutoff `elapsed − window`. -/
theorem update_provider_history (e : ℚ) (ev : TxEvent)
    (st : DnsTrafficData) :
    (DnsTrafficData.update e ev st).provider_history =
      (pushHistory ev.provider
          (e, (getCount ev.provider
            (bumpCount ev.provider st.queries_per_provider) : ℚ))
          st.provider_history).map
        (fun en =>
          (en.1, en.2.filter (fun pt => e - st.window_size ≤ pt.1))) := rfl

/-- Helper: every sample retained by one `update` lies at or after the
cutoff `elapsed − window`. -/
theorem mem_update_provider_history {e : ℚ} {ev : TxEvent}
    {st : DnsTrafficData} {p : DnsProvider} {pts : List (ℚ × ℚ)}
    (h : (p, pts) ∈ (DnsTrafficData.update e ev st).provider_history) :
    ∀ pt ∈ pts, e - st.window_size ≤ pt.1 := by
  rw [update_provider_history] at h
  obtain ⟨⟨p₁, pts₁⟩, _, heq⟩ := List.mem_map.mp h
  injection heq with hq hpts
  intro pt hpt
  rw [← hpts] at hpt
  simpa using (List.mem_filter.mp hpt).2

/-- Helper: a trailing update at elapsed time `e` is the last fold step. -/
theorem foldUpdates_append_single (evs : List (ℚ × TxEvent)) (e : ℚ)
    (ev : TxEvent) (d : DnsTrafficData) :
    foldUpdates (evs ++ [(e, ev)]) d =
      DnsTrafficData.update e ev (foldUpdates evs d) := by
  simp [foldUpdates, List.foldl_append]

/-- Helper: the provider history after one update at elapsed time 2 with
window 1, computed concretely. -/
theorem provider_history_example :
    (foldUpdates [((2 : ℚ), ev_example)]
        (DnsTrafficData.new 1)).provider_history =
      [(DnsProvider.Cloudflare, [((2 : ℚ), (1 : ℚ))])] := by
  norm_num [foldUpdates, DnsTrafficData.update, DnsTrafficData.update_top_lists,
    DnsTrafficData.prune_old_data, DnsTrafficData.new, pushHistory, bumpCount,
    getCount, ev_example, get_provider_for_ip, lookupProviderIn, DNS_PROVIDERS,
    List.filter]

/-- C2: after a sequence of updates whose last update happens at elapsed
time `T` with `T` greater than the window `W`, every retained sample of
every provider's series has elapsed time at least `T − W`; moreover every
single `update` purges all samples older than its cutoff. -/
theorem claim_c2_sliding_window :
    (∀ (w : ℚ) (evs : List (ℚ × TxEvent)) (e : ℚ) (ev : TxEvent)
        (p : DnsProvider) (pts : List (ℚ × ℚ)) (pt : ℚ × ℚ),
      w < e →
      (p, pts) ∈
        (foldUpdates (evs ++ [(e, ev)])
          (DnsTrafficData.new w)).provider_history →
      pt ∈ pts → e - w ≤ pt.1)
    ∧ (∀ (e : ℚ) (ev : TxEvent) (st : DnsTrafficData) (p : DnsProvider)
        (pts : List (ℚ × ℚ)) (pt : ℚ × ℚ),
      (p, pts) ∈ (DnsTrafficData.update e ev st).provider_history →
      pt ∈ pts → e - st.window_size ≤ pt.1) := by
  constructor
  · intro w evs e ev p pts pt _ hmem hpt
    rw [foldUpdates_append_single] at hmem
    have h2 := mem_update_provider_history hmem pt hpt
    rwa [foldUpdates_window_size] at h2
  · intro e ev st p pts pt hmem hpt
    exact mem_update_provider_history hmem pt hpt

/-- Witness for C2: one update at elapsed time 2 with window 1 retains
exactly the sample (2, 1), which satisfies 2 − 1 ≤ 2. -/
theorem claim_c2_witness :
    ((1 : ℚ) < 2
      ∧ (DnsProvider.Cloudflare, [((2 : ℚ), (1 : ℚ))]) ∈
        (foldUpdates ([] ++ [((2 : ℚ), ev_example)])
          (DnsTrafficData.new 1)).provider_history
      ∧ ((2 : ℚ), (1 : ℚ)) ∈ [((2 : ℚ), (1 : ℚ))])
    ∧ (2 : ℚ) - 1 ≤ ((2 : ℚ), (1 : ℚ)).1 := by
  have hh : (foldUpdates ([] ++ [((2 : ℚ), ev_example)])
        (DnsTrafficData.new 1)).provider_history =
      [(DnsProvider.Cloudflare, [((2 : ℚ), (1 : ℚ))])] := by
    rw [List.nil_append]
    exact provider_history_example
  refine ⟨⟨by norm_num, ?_, List.mem_singleton.mpr rfl⟩, ?_⟩
  · rw [hh]
    exact List.mem_singleton.mpr rfl
  · exact claim_c2_sliding_window.1 1 [] 2 ev_example DnsProvider.Cloudflare
      [((2 : ℚ), (1 : ℚ))] ((2 : ℚ), (1 : ℚ)) (by norm_num)
      (by rw [hh]; exact List.mem_singleton.mpr rfl)
      (List.mem_singleton.mpr rfl)

/-- Helper: bumping a key increments exactly that key's count. -/
theorem getCount_bumpCount_self {α : Type} [DecidableEq α] (k : α)
    (m : List (α × Nat)) :
    getCount k (bumpCount k m) = getCount k m + 1 := by
  induction m with
  | nil => simp [bumpCount, getCount]
  | cons head rest ih =>
      obtain ⟨k₀, v⟩ := head
      by_cases h : k = k₀
      · subst h
        simp [bumpCount, getCount]
      · simp [bumpCount, getCount, h, ih]

/-- Helper: bumping any key never decreases any count. -/
theorem getCount_le_bumpCount {α : Type} [DecidableEq α] (k q : α)
    (m : List (α × Nat)) :
    getCount q m ≤ getCount q (bumpCount k m) := by
  induction m with
  | nil =>
      by_cases h : q = k <;> simp [bumpCount, getCount, h]
  | cons head rest ih =>
      obtain ⟨k₀, v⟩ := head
      by_cases hk : k = k₀
      · subst hk
        by_cases hq : q = k <;> simp [bumpCount, getCount, hq]
      · by_cases hq : q = k₀ <;> simp [bumpCount, getCount, hk, hq, ih]

/-- Helper: where an entry of `pushHistory p pt hist` comes from: it was
already in `hist`, or it is the fresh singleton `(p, [pt])`, or it is an
entry of `hist` for `p` with `pt` appended. -/
theorem mem_pushHistory (p : DnsProvider) (pt : ℚ × ℚ) :
    ∀ (hist : List (DnsProvider × List (ℚ × ℚ))) (q : DnsProvider)
      (pts : List (ℚ × ℚ)),
    (q, pts) ∈ pushHistory p pt hist →
    (q, pts) ∈ hist
    ∨ (q = p ∧ pts = [pt])
    ∨ (q = p ∧ ∃ pts₀, (q, pts₀) ∈ hist ∧ pts = pts₀ ++ [pt]) := by
  intro hist
  induction hist with
  | nil =>
      intro q pts h
      rw [pushHistory, List.mem_singleton] at h
      injection h with h1 h2
      exact Or.inr (Or.inl ⟨h1, h2⟩)
  | cons head rest ih =>
      obtain ⟨p₀, pts₀⟩ := head
      intro q pts h
      by_cases hp : p = p₀
      · rw [pushHistory, if_pos hp] at h
        rcases List.mem_cons.mp h with heq | htail
        · injection heq with h1 h2
          subst h1
          subst h2
          exact Or.inr (Or.inr ⟨hp.symm, pts₀,
            List.mem_cons_self _ _, rfl⟩)
        · exact Or.inl (List.mem_cons_of_mem _ htail)
      · rw [pushHistory, if_neg hp] at h
        rcases List.mem_cons.mp h with heq | htail
        · exact Or.inl (heq ▸ List.mem_cons_self _ _)
        · rcases ih q pts htail with h1 | h2 | ⟨hq, pts₁, hmem, hpts⟩
          · exact Or.inl (List.mem_cons_of_mem _ h1)
          · exact Or.inr (Or.inl h2)
          · exact Or.inr (Or.inr
              ⟨hq, pts₁, List.mem_cons_of_mem _ hmem, hpts⟩)

/-- The C8 invariant: every provider's retained series is non-decreasing
in its cumulative count, and every retained count is bounded by that
provider's current query counter. -/
def HistCountsInv (d : DnsTrafficData) : Prop :=
  ∀ p pts, (p, pts) ∈ d.provider_history →
    pts.Pairwise (fun a b : ℚ × ℚ => a.2 ≤ b.2)
    ∧ ∀ pt ∈ pts, pt.2 ≤ (getCount p d.queries_per_provider : ℚ)

/-- Helper: `update` leaves the query counters as the bumped map. -/
theorem update_queries_per_provider (e : ℚ) (ev : TxEvent)
    (st : DnsTrafficData) :
    (DnsTrafficData.update e ev st).queries_per_provider =
      bumpCount ev.provider st.queries_per_provider := rfl

/-- Helper: one `update` preserves the C8 invariant. -/
theorem histCountsInv_update (e : ℚ) (ev : TxEvent) (st : DnsTrafficData)
    (h : HistCountsInv st) :
    HistCountsInv (DnsTrafficData.update e ev st) := by
  intro p pts hmem
  rw [update_provider_history] at hmem
  rw [update_queries_per_provider]
  obtain ⟨⟨p₁, pts₁⟩, hmem₁, heq⟩ := List.mem_map.mp hmem
  injection heq with h1 h2
  subst h1
  subst h2
  set c : ℚ :=
    (getCount ev.provider
      (bumpCount ev.provider st.queries_per_provider) : ℚ) with hc
  have hboundlift : ∀ q : DnsProvider, ∀ x : ℚ,
      x ≤ (getCount q st.queries_per_provider : ℚ) →
      x ≤ (getCount q (bumpCount ev.provider st.queries_per_provider) : ℚ) :=
    fun q x hx => le_trans hx
      (Nat.cast_le.mpr (getCount_le_bumpCount ev.provider q _))
  rcases mem_pushHistory ev.provider (e, c) st.provider_history p₁ pts₁ hmem₁
    with hold | ⟨hq, hsing⟩ | ⟨hq, pts₀, hmem₀, happ⟩
  · obtain ⟨hmono, hbound⟩ := h p₁ pts₁ hold
    refine ⟨List.Pairwise.sublist (List.filter_sublist _) hmono, ?_⟩
    intro pt hpt
    exact hboundlift p₁ pt.2 (hbound pt (List.mem_of_mem_filter hpt))
  · subst hq
    subst hsing
    refine ⟨List.Pairwise.sublist (List.filter_sublist _) ?_, ?_⟩
    · exact List.pairwise_singleton _ _
    · intro pt hpt
      have : pt ∈ [(e, c)] := List.mem_of_mem_filter hpt
      rw [List.mem_singleton] at this
      subst this
      exact le_refl _
  · subst hq
    subst happ
    obtain ⟨hmono, hbound⟩ := h ev.provider pts₀ hmem₀
    have hcross : ∀ a ∈ pts₀, a.2 ≤ ((e, c) : ℚ × ℚ).2 := by
      intro a ha
      exact hboundlift ev.provider a.2 (hbound a ha)
    have hmono' : (pts₀ ++ [(e, c)]).Pairwise
        (fun a b : ℚ × ℚ => a.2 ≤ b.2) := by
      rw [List.pairwise_append]
      exact ⟨hmono, List.pairwise_singleton _ _,
        fun a ha b hb => (List.mem_singleton.mp hb) ▸ hcross a ha⟩
    refine ⟨List.Pairwise.sublist (List.filter_sublist _) hmono', ?_⟩
    intro pt hpt
    rcases List.mem_append.mp (List.mem_of_mem_filter hpt) with hl | hr
    · exact hboundlift ev.provider pt.2 (hbound pt hl)
    · rw [List.mem_singleton] at hr
      subst hr
      exact le_refl _

/-- Helper: the C8 invariant survives any sequence of updates. -/
theorem histCountsInv_foldUpdates (evs : List (ℚ × TxEvent)) :
    ∀ d : DnsTrafficData, HistCountsInv d →
      HistCountsInv (foldUpdates evs d) := by
  induction evs with
  | nil => exact fun d h => h
  | cons pe rest ih =>
      exact fun d h => ih _ (histCountsInv_update pe.1 pe.2 d h)

/-- Helper: the fresh aggregator satisfies the C8 invariant vacuously. -/
theorem histCountsInv_new (w : ℚ) : HistCountsInv (DnsTrafficData.new w) :=
  fun _ _ h => absurd h (List.not_mem_nil _)

/-- C8: after any sequence of updates and window prunes, the
cumulative-count values of every provider's retained time-series samples
are monotonically non-decreasing in sample order. -/
theorem claim_c8_monotone_series (w : ℚ) (evs : List (ℚ × TxEvent))
    (p : DnsProvider) (pts : List (ℚ × ℚ))
    (h : (p, pts) ∈
      (foldUpdates evs (DnsTrafficData.new w)).provider_history) :
    pts.Pairwise (fun a b : ℚ × ℚ => a.2 ≤ b.2) :=
  (histCountsInv_foldUpdates evs _ (histCountsInv_new w) p pts h).1

/-- Witness for C8 on the one-update series computed concretely. -/
theorem claim_c8_witness :
    ((DnsProvider.Cloudflare, [((2 : ℚ), (1 : ℚ))]) ∈
      (foldUpdates [((2 : ℚ), ev_example)]
        (DnsTrafficData.new 1)).provider_history)
    ∧ ([((2 : ℚ), (1 : ℚ))] : List (ℚ × ℚ)).Pairwise
        (fun a b : ℚ × ℚ => a.2 ≤ b.2) := by
  have hmem : (DnsProvider.Cloudflare, [((2 : ℚ), (1 : ℚ))]) ∈
      (foldUpdates [((2 : ℚ), ev_example)]
        (DnsTrafficData.new 1)).provider_history := by
    rw [provider_history_example]
    exact List.mem_singleton.mpr rfl
  exact ⟨hmem,
    claim_c8_monotone_series 1 [((2 : ℚ), ev_example)]
      DnsProvider.Cloudflare [((2 : ℚ), (1 : ℚ))] hmem⟩

end Dustcloud
